import Mathlib

/-!
Verification development for the aura-agent repository.

This file gives a shallow embedding of the two source files:

* `src/app/agent.py` — the tool facade: four alert-processing operations
  (`process_cloud_alert`, `analyze_root_cause`, `generate_remediation_plan`,
  `simulate_remediation_execution`), each a lookup into a fixed table keyed
  by the alert type, plus a time stamp.
* `src/app/aura_demo.py` — the dashboard: four scenario lookup tables
  (`get_alert_info`, `get_analysis_data`, `get_remediation_data`,
  `get_impact_data`) and the streamlit session-state workflow driven by the
  Launch / Start-Analysis / Approve / Reject / Defer / Reset buttons.

Python dictionaries are embedded as association lists (`List (String × _)`)
looked up with `List.lookup` (keys are unique in every source table).
`datetime.now()` results are passed in as explicit string parameters (`t0`
for the module-load stamps inside `DEMO_ALERTS`, `now` for the per-call
stamps), and the GCP project id obtained from the ambient credentials at
module load is a string parameter `pid`.  A Python `KeyError` is modelled
as `Option.none`; the JSON error objects returned by the facade are
embedded as explicit error structures carrying exactly the keys the source
puts into them.
-/

namespace Aura

/-- One value of an alert's `metrics` dictionary in `agent.py`: either a
plain string or a list of strings (only `source_ranges` is a list). -/
inductive MetricVal where
  | str (s : String)
  | strs (l : List String)
deriving DecidableEq

/-- One entry of the `DEMO_ALERTS` table in `agent.py`. -/
structure Alert where
  alert_id : String
  type : String
  severity : String
  resource : String
  description : String
  metrics : List (String × MetricVal)
  timestamp : String
deriving DecidableEq

/-- The module-level alert table `DEMO_ALERTS` of `agent.py`.  `pid` is the
ambient GCP project id and `t0` the module-load time stamp (the source calls
`datetime.datetime.now()` once per entry while the module loads). -/
def DEMO_ALERTS (pid t0 : String) : List (String × Alert) :=
  [("cost_spike",
    { alert_id := "cost-alert-001"
      type := "billing_anomaly"
      severity := "HIGH"
      resource := "projects/" ++ pid ++ "/zones/us-central1-a/instances/expensive-vm"
      description := "Compute Engine cost increased by 300% in the last 6 hours"
      metrics := [("cost_increase", .str "300%"),
                  ("current_cost", .str "$45/day"),
                  ("previous_cost", .str "$15/day"),
                  ("cpu_utilization", .str "2%"),
                  ("memory_usage", .str "15%"),
                  ("uptime", .str "18 hours continuous")]
      timestamp := t0 }),
   ("security_breach",
    { alert_id := "sec-alert-001"
      type := "firewall_violation"
      severity := "CRITICAL"
      resource := "projects/" ++ pid ++ "/global/firewalls/allow-all-traffic"
      description := "Firewall rule allows unrestricted internet access on all ports"
      metrics := [("source_ranges", .strs ["0.0.0.0/0"]),
                  ("allowed_ports", .str "0-65535"),
                  ("protocol", .str "tcp"),
                  ("targets", .str "all instances"),
                  ("created", .str "2 days ago")]
      timestamp := t0 }),
   ("performance_issue",
    { alert_id := "perf-alert-001"
      type := "resource_exhaustion"
      severity := "MEDIUM"
      resource := "projects/" ++ pid ++ "/zones/us-west1-a/instances/web-server"
      description := "Memory usage sustained above 90% for 30+ minutes"
      metrics := [("memory_usage", .str "94%"),
                  ("cpu_usage", .str "67%"),
                  ("disk_usage", .str "78%"),
                  ("duration", .str "35 minutes"),
                  ("affected_services", .str "web-frontend")]
      timestamp := t0 })]

/-- The error object `process_cloud_alert` serialises for an unknown alert
type: an `error` message plus `available_types = list(DEMO_ALERTS.keys())`. -/
structure UnknownAlertError where
  error : String
  available_types : List String
deriving DecidableEq

/-- The success object of `process_cloud_alert`. -/
structure ProcessedAlert where
  alert_processed : Bool
  alert_details : Alert
  analysis_timestamp : String
  next_action : String
deriving DecidableEq

/-- Embedding of `process_cloud_alert` from `agent.py`: a lookup into
`DEMO_ALERTS`, wrapping the found alert with a time stamp and a next-action
hint, or returning the structured unknown-type error. -/
def process_cloud_alert (pid t0 now : String) (alert_type : String) :
    Except UnknownAlertError ProcessedAlert :=
  match (DEMO_ALERTS pid t0).lookup alert_type with
  | none => .error { error := "Unknown alert type: " ++ alert_type,
                     available_types := (DEMO_ALERTS pid t0).map Prod.fst }
  | some alert => .ok { alert_processed := true
                        alert_details := alert
                        analysis_timestamp := now
                        next_action := "analyze_root_cause" }

/-- The error object returned by the other three facade operations for an
unknown alert type: a bare `error` message with no further keys. -/
structure ToolError where
  error : String
deriving DecidableEq

/-- The `risk_assessment` sub-dictionary of an analysis in `agent.py`. -/
structure RiskAssessment where
  financial_risk : String
  operational_risk : String
  security_risk : String
deriving DecidableEq

/-- One entry of the `analyses` table local to `analyze_root_cause`. -/
structure Analysis where
  root_cause : String
  contributing_factors : List String
  confidence_score : Nat
  risk_assessment : RiskAssessment
deriving DecidableEq

/-- The analysis as returned, i.e. with the per-call
`analysis_timestamp` key added. -/
structure AnalysisOut extends Analysis where
  analysis_timestamp : String
deriving DecidableEq

/-- The `analyses` table built afresh inside every call of
`analyze_root_cause` in `agent.py`. -/
def analyses : List (String × Analysis) :=
  [("cost_spike",
    { root_cause := "VM instance running for 18+ hours with minimal CPU utilization (2%). Likely an abandoned or forgotten workload consuming unnecessary resources."
      contributing_factors := ["No automatic shutdown policy configured",
                               "No resource utilization monitoring alerts",
                               "VM oversized for actual workload"]
      confidence_score := 95
      risk_assessment := { financial_risk := "Medium - $30/day unnecessary cost"
                           operational_risk := "Low - non-critical workload"
                           security_risk := "Low" } }),
   ("security_breach",
    { root_cause := "Firewall rule \x27allow-all-traffic\x27 permits unrestricted access from any IP address on all ports, creating critical security vulnerability."
      contributing_factors := ["Overly permissive rule likely created for testing",
                               "No regular security audit of firewall rules",
                               "Missing principle of least privilege implementation"]
      confidence_score := 98
      risk_assessment := { financial_risk := "High - potential data breach costs"
                           operational_risk := "High - system compromise possible"
                           security_risk := "Critical - immediate attention required" } }),
   ("performance_issue",
    { root_cause := "Web server instance undersized for current traffic load, leading to memory exhaustion and performance degradation."
      contributing_factors := ["Traffic increased beyond instance capacity",
                               "No auto-scaling configured",
                               "Memory-intensive applications not optimized"]
      confidence_score := 87
      risk_assessment := { financial_risk := "Medium - potential revenue loss from slow site"
                           operational_risk := "Medium - service degradation"
                           security_risk := "Low" } })]

/-- Embedding of `analyze_root_cause` from `agent.py`: a lookup into the
local `analyses` table plus the `analysis_timestamp` stamp; an unknown type
yields only the bare error message (no list of valid identifiers). -/
def analyze_root_cause (now : String) (alert_type : String) :
    Except ToolError AnalysisOut :=
  match analyses.lookup alert_type with
  | none => .error { error := "No analysis available for " ++ alert_type }
  | some an => .ok { toAnalysis := an, analysis_timestamp := now }

/-- One entry of the `remediation_plans` table local to
`generate_remediation_plan`. -/
structure Plan where
  recommended_action : String
  urgency : String
  estimated_time : String
  commands : List String
  expected_outcome : String
  rollback_strategy : String
  risk_level : Nat
  approval_required : Bool
deriving DecidableEq

/-- The plan as returned, i.e. with the per-call `plan_generated` stamp and
the `commands_formatted` join added. -/
structure PlanOut extends Plan where
  plan_generated : String
  commands_formatted : String
deriving DecidableEq

/-- The `remediation_plans` table built afresh inside every call of
`generate_remediation_plan` in `agent.py`. -/
def remediation_plans (pid : String) : List (String × Plan) :=
  [("cost_spike",
    { recommended_action := "shutdown_unused_instance"
      urgency := "Medium"
      estimated_time := "2 minutes"
      commands := ["# Stop the expensive VM instance",
                   "gcloud compute instances stop expensive-vm \\",
                   "  --zone=us-central1-a \\",
                   "  --project=" ++ pid,
                   "",
                   "# Optional: Create snapshot for data preservation",
                   "gcloud compute disks snapshot expensive-vm \\",
                   "  --snapshot-names=expensive-vm-backup-$(date +%Y%m%d) \\",
                   "  --zone=us-central1-a \\",
                   "  --project=" ++ pid]
      expected_outcome := "Cost savings of $30/day (~$900/month)"
      rollback_strategy := "Instance can be restarted anytime: gcloud compute instances start expensive-vm --zone=us-central1-a"
      risk_level := 2
      approval_required := true }),
   ("security_breach",
    { recommended_action := "replace_firewall_rule"
      urgency := "Critical"
      estimated_time := "1 minute"
      commands := ["# Remove dangerous firewall rule",
                   "gcloud compute firewall-rules delete allow-all-traffic \\",
                   "  --project=" ++ pid ++ " \\",
                   "  --quiet",
                   "",
                   "# Create secure replacement rule for web traffic only",
                   "gcloud compute firewall-rules create secure-web-access \\",
                   "  --allow tcp:80,tcp:443 \\",
                   "  --source-ranges 0.0.0.0/0 \\",
                   "  --description \x27Allow HTTP/HTTPS traffic only\x27 \\",
                   "  --project=" ++ pid]
      expected_outcome := "Eliminates critical security vulnerability, reduces attack surface by 99%"
      rollback_strategy := "Original rule can be recreated (not recommended): gcloud compute firewall-rules create allow-all-traffic --allow tcp:0-65535 --source-ranges 0.0.0.0/0"
      risk_level := 8
      approval_required := true }),
   ("performance_issue",
    { recommended_action := "upgrade_instance_type"
      urgency := "Medium"
      estimated_time := "5 minutes"
      commands := ["# Stop web server instance",
                   "gcloud compute instances stop web-server \\",
                   "  --zone=us-west1-a \\",
                   "  --project=" ++ pid,
                   "",
                   "# Upgrade to higher memory machine type",
                   "gcloud compute instances set-machine-type web-server \\",
                   "  --machine-type=n1-standard-4 \\",
                   "  --zone=us-west1-a \\",
                   "  --project=" ++ pid,
                   "",
                   "# Restart the instance",
                   "gcloud compute instances start web-server \\",
                   "  --zone=us-west1-a \\",
                   "  --project=" ++ pid]
      expected_outcome := "Double memory capacity (8GB → 16GB), improved performance and stability"
      rollback_strategy := "Can downgrade machine type if needed: gcloud compute instances set-machine-type web-server --machine-type=n1-standard-2"
      risk_level := 4
      approval_required := true })]

/-- Embedding of `generate_remediation_plan` from `agent.py`: a lookup into
the local `remediation_plans` table plus the `plan_generated` stamp and the
newline-joined `commands_formatted` blob; an unknown type yields only the
bare error message. -/
def generate_remediation_plan (pid now : String) (alert_type : String) :
    Except ToolError PlanOut :=
  match (remediation_plans pid).lookup alert_type with
  | none => .error { error := "No remediation plan available for " ++ alert_type }
  | some p => .ok { toPlan := p
                    plan_generated := now
                    commands_formatted := String.intercalate "\n" p.commands }

/-- One entry of the `execution_results` table local to
`simulate_remediation_execution`.  Each source entry has exactly six keys;
the scenario-specific fifth key (`cost_savings`, `security_improvement` or
`performance_improvement`) is kept as the key/value pair `extra_metric`. -/
structure ExecutionResult where
  status : String
  execution_time : String
  commands_executed : Nat
  outcome : String
  extra_metric : String × String
  next_monitoring : String
deriving DecidableEq

/-- The execution result as returned, i.e. with the per-call
`execution_timestamp` stamp and the fixed `executed_by` label added. -/
structure ExecutionOut extends ExecutionResult where
  execution_timestamp : String
  executed_by : String
deriving DecidableEq

/-- The `execution_results` table built afresh inside every call of
`simulate_remediation_execution` in `agent.py`. -/
def execution_results : List (String × ExecutionResult) :=
  [("cost_spike",
    { status := "SUCCESS"
      execution_time := "2.3 seconds"
      commands_executed := 2
      outcome := "VM \x27expensive-vm\x27 successfully stopped"
      extra_metric := ("cost_savings", "$30/day verified")
      next_monitoring := "Will monitor for 24 hours to ensure no business impact" }),
   ("security_breach",
    { status := "SUCCESS"
      execution_time := "1.8 seconds"
      commands_executed := 2
      outcome := "Dangerous firewall rule removed, secure replacement created"
      extra_metric := ("security_improvement", "Attack surface reduced by 99%")
      next_monitoring := "Security scan scheduled for 1 hour to verify fix" }),
   ("performance_issue",
    { status := "SUCCESS"
      execution_time := "4.7 seconds"
      commands_executed := 3
      outcome := "Web server upgraded from n1-standard-2 to n1-standard-4"
      extra_metric := ("performance_improvement", "Memory increased from 8GB to 16GB")
      next_monitoring := "Performance metrics will be monitored for 2 hours" })]

/-- Embedding of `simulate_remediation_execution` from `agent.py`: a lookup
into the local `execution_results` table plus the `execution_timestamp`
stamp and the fixed `executed_by` label; an unknown type yields only the
bare error message.  The source performs nothing besides this
lookup-and-stamp. -/
def simulate_remediation_execution (now : String) (alert_type : String) :
    Except ToolError ExecutionOut :=
  match execution_results.lookup alert_type with
  | none => .error { error := "Cannot execute remediation for " ++ alert_type }
  | some r => .ok { toExecutionResult := r
                    execution_timestamp := now
                    executed_by := "Aura Autonomous Agent" }

/-- The `alert_scenarios` selectbox dictionary of `main` in
`aura_demo.py`: the six scenario identifiers the dashboard offers, each
with its display label. -/
def alert_scenarios : List (String × String) :=
  [("cost_anomaly", "💰 Cost Spike - VM Running Unused ($45/day waste)"),
   ("security_vulnerability", "🔒 Security Breach - Open Firewall (Critical Risk)"),
   ("performance_degradation", "⚡ Performance Issue - Memory Exhaustion (94% usage)"),
   ("storage_waste", "💾 Storage Waste - Orphaned Volumes ($200/month)"),
   ("network_anomaly", "🌐 Network Spike - Unusual Traffic (Security concern)"),
   ("compliance_violation", "⚖️ Compliance Risk - Unencrypted Database")]

/-- One entry of the `alerts` dictionary inside `get_alert_info` in
`aura_demo.py`. -/
structure AlertInfo where
  severity : String
  resource : String
  duration : String
  description : String
deriving DecidableEq

/-- The `alerts` dictionary of `get_alert_info` in `aura_demo.py`. -/
def alerts : List (String × AlertInfo) :=
  [("cost_anomaly",
    { severity := "HIGH"
      resource := "expensive-vm"
      duration := "18 hours"
      description := "VM running with 2% CPU usage - likely abandoned workload" }),
   ("security_vulnerability",
    { severity := "CRITICAL"
      resource := "allow-all-firewall"
      duration := "2 days"
      description := "Firewall rule allows unrestricted access from 0.0.0.0/0" }),
   ("performance_degradation",
    { severity := "MEDIUM"
      resource := "web-server"
      duration := "35 minutes"
      description := "Memory usage sustained above 90%" }),
   ("storage_waste",
    { severity := "MEDIUM"
      resource := "orphaned-disks-pool"
      duration := "30 days"
      description := "47 unattached disk volumes consuming storage unnecessarily" }),
   ("network_anomaly",
    { severity := "HIGH"
      resource := "frontend-load-balancer"
      duration := "15 minutes"
      description := "Traffic spike 400% above normal - potential DDoS attack" }),
   ("compliance_violation",
    { severity := "CRITICAL"
      resource := "customer-database"
      duration := "detected now"
      description := "Production database without encryption - GDPR violation risk" })]

/-- Embedding of `get_alert_info` from `aura_demo.py`.  The source indexes
the dictionary directly (`alerts[scenario]`), so an unknown scenario raises
`KeyError`; that failure is modelled as `none` — there is no structured
error payload at all on this path. -/
def get_alert_info (scenario : String) : Option AlertInfo :=
  alerts.lookup scenario

/-- One entry of the `analysis` dictionary inside `get_analysis_data` in
`aura_demo.py`. -/
structure AnalysisData where
  confidence : Nat
  risk : Nat
  urgency : String
  root_cause : String
  factors : List String
deriving DecidableEq

/-- The `analysis` dictionary of `get_analysis_data` in `aura_demo.py`. -/
def analysis : List (String × AnalysisData) :=
  [("cost_anomaly",
    { confidence := 95
      risk := 3
      urgency := "Medium"
      root_cause := "VM instance running with minimal CPU utilization, indicating abandoned workload"
      factors := ["No automatic shutdown policies configured",
                  "VM oversized for actual workload",
                  "Missing cost monitoring alerts"] }),
   ("security_vulnerability",
    { confidence := 98
      risk := 9
      urgency := "Critical"
      root_cause := "Firewall rule permits unrestricted access from any IP on all ports"
      factors := ["Rule likely created for testing and forgotten",
                  "No regular security policy audits",
                  "Missing principle of least privilege"] }),
   ("performance_degradation",
    { confidence := 87
      risk := 5
      urgency := "High"
      root_cause := "Web server undersized for current traffic load causing memory exhaustion"
      factors := ["Traffic increased beyond instance capacity",
                  "No auto-scaling configured",
                  "Memory-intensive apps not optimized"] }),
   ("storage_waste",
    { confidence := 92
      risk := 4
      urgency := "Medium"
      root_cause := "Multiple disk volumes remain unattached after VM deletions"
      factors := ["No automatic cleanup policies configured",
                  "Manual VM deletion without disk cleanup",
                  "Missing storage lifecycle management"] }),
   ("network_anomaly",
    { confidence := 88
      risk := 7
      urgency := "High"
      root_cause := "Unusual traffic pattern suggests DDoS attack or viral content"
      factors := ["Traffic increased 400% in 15 minutes",
                  "No DDoS protection configured",
                  "Source IPs from suspicious regions"] }),
   ("compliance_violation",
    { confidence := 99
      risk := 9
      urgency := "Critical"
      root_cause := "Customer database lacks encryption violating GDPR requirements"
      factors := ["Database created without encryption",
                  "No compliance monitoring alerts",
                  "Sensitive data at risk of exposure"] })]

/-- Embedding of `get_analysis_data` from `aura_demo.py` (direct dictionary
index, `KeyError` modelled as `none`). -/
def get_analysis_data (scenario : String) : Option AnalysisData :=
  analysis.lookup scenario

/-- One entry of the `plans` dictionary inside `get_remediation_data` in
`aura_demo.py`.  `commands` is the triple-quoted multi-line command blob. -/
structure RemediationData where
  action : String
  time : String
  outcome : String
  success_rate : Nat
  commands : String
  safety : List String
  rollback : String
deriving DecidableEq

/-- The `plans` dictionary of `get_remediation_data` in `aura_demo.py`. -/
def plans : List (String × RemediationData) :=
  [("cost_anomaly",
    { action := "Stop unused VM instance"
      time := "2 minutes"
      outcome := "$30/day cost savings"
      success_rate := 95
      commands := "# Stop expensive VM\ngcloud compute instances stop expensive-vm --zone=us-central1-a\n\n# Create backup snapshot\ngcloud compute disks snapshot expensive-vm --snapshot-names=backup-$(date +%Y%m%d)"
      safety := ["Backup snapshot created",
                 "Non-critical workload verified",
                 "Can restart anytime"]
      rollback := "gcloud compute instances start expensive-vm --zone=us-central1-a" }),
   ("security_vulnerability",
    { action := "Replace firewall rule"
      time := "1 minute"
      outcome := "99% attack surface reduction"
      success_rate := 92
      commands := "# Remove dangerous rule\ngcloud compute firewall-rules delete allow-all-traffic --quiet\n\n# Create secure replacement\ngcloud compute firewall-rules create secure-web-access --allow tcp:80,tcp:443"
      safety := ["Replacement rule created immediately",
                 "Only essential ports exposed",
                 "Change logged for audit"]
      rollback := "# Not recommended - recreates vulnerability" }),
   ("performance_degradation",
    { action := "Upgrade instance type"
      time := "4 minutes"
      outcome := "2x memory capacity"
      success_rate := 89
      commands := "# Stop for upgrade\ngcloud compute instances stop web-server --zone=us-west1-a\n\n# Upgrade machine type\ngcloud compute instances set-machine-type web-server --machine-type=n1-standard-4\n\n# Restart upgraded server\ngcloud compute instances start web-server --zone=us-west1-a"
      safety := ["Maintenance window scheduled",
                 "Health checks configured",
                 "Gradual traffic restoration"]
      rollback := "gcloud compute instances set-machine-type web-server --machine-type=n1-standard-2" }),
   ("storage_waste",
    { action := "Delete orphaned disk volumes"
      time := "3 minutes"
      outcome := "$200/month storage savings"
      success_rate := 94
      commands := "# List orphaned disks\ngcloud compute disks list --filter=\"users:( )\"\n\n# Delete unattached volumes\ngcloud compute disks delete orphaned-disk-1 orphaned-disk-2 --zone=us-central1-a\n\n# Set up automatic cleanup policy\ngcloud compute resource-policies create disk-lifecycle cleanup-policy"
      safety := ["Verify disks are truly orphaned",
                 "Create snapshots before deletion",
                 "Automatic policy prevents future waste"]
      rollback := "gcloud compute disks snapshot [disk-name] --snapshot-names=recovery-backup" }),
   ("network_anomaly",
    { action := "Enable DDoS protection"
      time := "2 minutes"
      outcome := "Traffic normalized, attack blocked"
      success_rate := 91
      commands := "# Enable Cloud Armor DDoS protection\ngcloud compute security-policies create ddos-protection\n\n# Apply rate limiting rule\ngcloud compute security-policies rules create 1000 --security-policy=ddos-protection --expression=\"true\" --action=\"rate-based-ban\"\n\n# Apply to load balancer\ngcloud compute backend-services update frontend-service --security-policy=ddos-protection"
      safety := ["Gradual rate limiting implementation",
                 "Whitelist known good IPs",
                 "24/7 monitoring enabled"]
      rollback := "gcloud compute security-policies delete ddos-protection" }),
   ("compliance_violation",
    { action := "Enable database encryption"
      time := "5 minutes"
      outcome := "GDPR compliance restored"
      success_rate := 96
      commands := "# Create encrypted backup\ngcloud sql backups create --instance=customer-database\n\n# Enable encryption at rest\ngcloud sql instances patch customer-database --storage-auto-increase --database-flags=cloudsql.enable_encryption_at_rest=on\n\n# Verify encryption status\ngcloud sql instances describe customer-database --format=\"value(settings.storageAutoResize)\"\n\n\n\n\n"
      safety := ["Backup created before changes",
                 "Zero-downtime encryption process",
                 "Compliance audit trail maintained"]
      rollback := "gcloud sql backups restore [BACKUP_ID] --restore-instance=customer-database" })]

/-- Embedding of `get_remediation_data` from `aura_demo.py` (direct
dictionary index, `KeyError` modelled as `none`). -/
def get_remediation_data (scenario : String) : Option RemediationData :=
  plans.lookup scenario

/-- One entry of the `impacts` dictionary inside `get_impact_data` in
`aura_demo.py`. -/
structure ImpactData where
  title : String
  details : List String
deriving DecidableEq

/-- The `impacts` dictionary of `get_impact_data` in `aura_demo.py`. -/
def impacts : List (String × ImpactData) :=
  [("cost_anomaly",
    { title := "💰 Cost Optimization Complete"
      details := ["VM \x27expensive-vm\x27 safely stopped",
                  "Cost reduced from $45/day to $15/day",
                  "Monthly savings: $900",
                  "Backup created for safety"] }),
   ("security_vulnerability",
    { title := "🔒 Security Vulnerability Eliminated"
      details := ["Dangerous firewall rule removed",
                  "Secure replacement created",
                  "Attack surface reduced by 99%",
                  "Critical risk eliminated"] }),
   ("performance_degradation",
    { title := "⚡ Performance Issue Resolved"
      details := ["Server upgraded to n1-standard-4",
                  "Memory doubled from 8GB to 16GB",
                  "Performance restored to optimal",
                  "Expected 70% reduction in memory pressure"] }),
   ("storage_waste",
    { title := "💾 Storage Optimization Complete"
      details := ["47 orphaned disk volumes deleted",
                  "Storage cost reduced by $200/month",
                  "Automatic cleanup policy implemented",
                  "Future waste prevention enabled"] }),
   ("network_anomaly",
    { title := "🌐 Network Security Enhanced"
      details := ["DDoS protection successfully enabled",
                  "Malicious traffic blocked at edge",
                  "Normal traffic flow restored",
                  "24/7 monitoring activated"] }),
   ("compliance_violation",
    { title := "⚖️ Compliance Violation Resolved"
      details := ["Database encryption enabled successfully",
                  "GDPR compliance requirements met",
                  "Customer data now fully protected",
                  "Audit trail maintained for compliance"] })]

/-- Embedding of `get_impact_data` from `aura_demo.py` (direct dictionary
index, `KeyError` modelled as `none`). -/
def get_impact_data (scenario : String) : Option ImpactData :=
  impacts.lookup scenario

/-- The streamlit session state used by `aura_demo.py`.  The source stores
four keys in `st.session_state` and reads them with defaults
(`demo_running`/`analysis_done`/`execution_done` default `False`,
`current_scenario` absent); an absent key is modelled by the default. -/
structure SessionState where
  demo_running : Bool
  current_scenario : Option String
  analysis_done : Bool
  execution_done : Bool
deriving DecidableEq

/-- The session state at the start of a session (no keys set). -/
def initState : SessionState :=
  { demo_running := false
    current_scenario := none
    analysis_done := false
    execution_done := false }

/-- The caller-visible triggers of the dashboard: one per button of
`aura_demo.py` (`launch` is the sidebar's Launch Aura Demo together with the
selectbox choice; `reset` is the Run Another Demo button). -/
inductive Trigger where
  | launch (scenario : String)
  | start_analysis
  | approve
  | reject
  | defer
  | reset
deriving DecidableEq

/-- One script rerun of `aura_demo.py` processing one button click.  A
button that the script does not render in the given state cannot fire, so
its trigger leaves the state unchanged:

* `launch` (always rendered) sets `demo_running` and `current_scenario`
  (`main`, lines 85-87) and touches nothing else;
* `start_analysis` (rendered while `demo_running`) runs `run_analysis`,
  which sets `analysis_done`;
* `approve` (rendered while `demo_running` and `analysis_done`) runs
  `execute_remediation`, which sets `execution_done`;
* `reject` and `defer` (same rendering condition) only display a message
  and change no session key;
* `reset` (rendered while the execution results are shown, i.e.
  `demo_running`, `analysis_done` and `execution_done` all hold) deletes
  all four keys. -/
def step (t : Trigger) (s : SessionState) : SessionState :=
  match t with
  | .launch sc => { s with demo_running := true, current_scenario := some sc }
  | .start_analysis => if s.demo_running then { s with analysis_done := true } else s
  | .approve =>
      if s.demo_running && s.analysis_done then { s with execution_done := true } else s
  | .reject => s
  | .defer => s
  | .reset =>
      if s.demo_running && s.analysis_done && s.execution_done then initState else s

/-- Runs a sequence of triggers from a state. -/
def runTriggers (ts : List Trigger) (s : SessionState) : SessionState :=
  ts.foldl (fun s t => step t s) s

/-- Whether the Approve/Reject/Defer gate of `show_execution_section` is
rendered in a state: `run_demo` runs while `demo_running` and reaches the
execution section while `analysis_done`. -/
def gateOffered (s : SessionState) : Bool :=
  s.demo_running && s.analysis_done

/-- The four workflow stages of the spec's fixed order. -/
inductive Stage where
  | Detected
  | Analyzed
  | Planned
  | Executed
deriving DecidableEq

/-- Which session key marks a stage complete in `aura_demo.py`: detection
is complete once the demo is launched; analysis once `analysis_done`; the
plan is rendered by `run_demo` in the same rerun that shows the analysis
results, so `Planned` is complete exactly when `analysis_done`; execution
once `execution_done`. -/
def stageComplete (s : SessionState) : Stage → Bool
  | .Detected => s.demo_running
  | .Analyzed => s.analysis_done
  | .Planned => s.analysis_done
  | .Executed => s.execution_done

/-- The spec's fixed stage order. -/
def stageOrder : List Stage :=
  [.Detected, .Analyzed, .Planned, .Executed]

/-- The set of completed stages of a state, listed in the fixed order. -/
def stagesCompleted (s : SessionState) : List Stage :=
  stageOrder.filter (stageComplete s)

/-- The downward-closure invariant on the completion flags: analysis is
never marked complete without a running demo, and execution never without
analysis. -/
def stageInv (s : SessionState) : Prop :=
  (s.analysis_done = true → s.demo_running = true) ∧
  (s.execution_done = true → s.analysis_done = true)

/-- Erases the per-call time stamp from an `analyze_root_cause` result. -/
def eraseAnalysisTs : Except ToolError AnalysisOut → Except ToolError AnalysisOut
  | .error e => .error e
  | .ok r => .ok { r with analysis_timestamp := "" }

/-- Erases the per-call time stamp from a `generate_remediation_plan`
result. -/
def erasePlanTs : Except ToolError PlanOut → Except ToolError PlanOut
  | .error e => .error e
  | .ok r => .ok { r with plan_generated := "" }

/-- Erases the per-call time stamp from a `simulate_remediation_execution`
result. -/
def eraseExecTs : Except ToolError ExecutionOut → Except ToolError ExecutionOut
  | .error e => .error e
  | .ok r => .ok { r with execution_timestamp := "" }

/-- The module-level mutable state of `agent.py`: the only module-level
dictionary is `DEMO_ALERTS`. -/
structure AgentModule where
  demo_alerts : List (String × Alert)
deriving DecidableEq

/-- A call of `analyze_root_cause` threaded through the module state.  The
source function builds its `analyses` table afresh inside the call and
never reads or writes `DEMO_ALERTS` (its only mutation is adding the
time-stamp key to the freshly built local dictionary), so the module state
passes through unchanged. -/
def analyze_root_cause_call (m : AgentModule) (now alert_type : String) :
    Except ToolError AnalysisOut × AgentModule :=
  (analyze_root_cause now alert_type, m)

/-- A call of `generate_remediation_plan` threaded through the module
state; as with `analyze_root_cause`, the source body never touches
`DEMO_ALERTS`. -/
def generate_remediation_plan_call (m : AgentModule) (pid now alert_type : String) :
    Except ToolError PlanOut × AgentModule :=
  (generate_remediation_plan pid now alert_type, m)

/-- A call of `simulate_remediation_execution` threaded through the module
state; the source body never touches `DEMO_ALERTS`. -/
def simulate_remediation_execution_call (m : AgentModule) (now alert_type : String) :
    Except ToolError ExecutionOut × AgentModule :=
  (simulate_remediation_execution now alert_type, m)

/-- A key that is not among the keys of an association list is not found by
`List.lookup`. -/
theorem lookup_eq_none_of_not_mem {α : Type} (k : String) (l : List (String × α))
    (h : k ∉ l.map Prod.fst) : l.lookup k = none := by
  induction l with
  | nil => rfl
  | cons p l ih =>
    obtain ⟨b, v⟩ := p
    simp only [List.map_cons, List.mem_cons, not_or] at h
    obtain ⟨h1, h2⟩ := h
    rw [List.lookup_cons, beq_eq_false_iff_ne.mpr h1]
    exact ih h2

/-- Every trigger of the dashboard is idempotent on the session state. -/
theorem step_idem (t : Trigger) (s : SessionState) : step t (step t s) = step t s := by
  obtain ⟨dr, sc, ad, ed⟩ := s
  cases t <;> cases dr <;> cases ad <;> cases ed <;> simp [step, initState]

/-- The initial session state satisfies the downward-closure invariant. -/
theorem stageInv_initState : stageInv initState := by
  constructor <;> intro h <;> simp [initState] at h

/-- Every trigger preserves the downward-closure invariant. -/
theorem stageInv_step (t : Trigger) (s : SessionState) (h : stageInv s) :
    stageInv (step t s) := by
  obtain ⟨dr, sc, ad, ed⟩ := s
  obtain ⟨h1, h2⟩ := h
  cases t <;> cases dr <;> cases ad <;> cases ed <;>
    simp_all [step, stageInv, initState]

/-- Every trigger sequence preserves the downward-closure invariant. -/
theorem stageInv_run (ts : List Trigger) (s : SessionState) (h : stageInv s) :
    stageInv (runTriggers ts s) := by
  induction ts generalizing s with
  | nil => exact h
  | cons t ts ih => exact ih (step t s) (stageInv_step t s h)

/-- Under the downward-closure invariant the completed stages form a
contiguous initial segment of the fixed stage order. -/
theorem stagesCompleted_ordered_of_inv (s : SessionState) (h : stageInv s) :
    List.IsPrefix (stagesCompleted s) stageOrder := by
  obtain ⟨dr, sc, ad, ed⟩ := s
  obtain ⟨h1, h2⟩ := h
  cases dr <;> cases ad <;> cases ed <;>
    first
      | exact ⟨[.Detected, .Analyzed, .Planned, .Executed], rfl⟩
      | exact ⟨[.Analyzed, .Planned, .Executed], rfl⟩
      | exact ⟨[.Executed], rfl⟩
      | exact ⟨[], rfl⟩
      | simp_all

/-- C1 (amended): for an identifier outside the respective closed key set,
`process_cloud_alert` returns a structured error whose `available_types`
exactly equals its closed set, while `analyze_root_cause`,
`generate_remediation_plan` and `simulate_remediation_execution` return a
structured error carrying only a message and no list of identifiers, and
the dashboard lookups `get_alert_info`, `get_analysis_data`,
`get_remediation_data` and `get_impact_data` fail with a `KeyError`
(modelled as `none`), not with a structured error result. -/
theorem unknown_scenario_error_shapes (pid t0 now a sc : String)
    (ha : a ∉ ["cost_spike", "security_breach", "performance_issue"])
    (hs : sc ∉ ["cost_anomaly", "security_vulnerability", "performance_degradation",
                "storage_waste", "network_anomaly", "compliance_violation"]) :
    process_cloud_alert pid t0 now a =
      .error { error := "Unknown alert type: " ++ a
               available_types := ["cost_spike", "security_breach", "performance_issue"] } ∧
    analyze_root_cause now a = .error { error := "No analysis available for " ++ a } ∧
    generate_remediation_plan pid now a =
      .error { error := "No remediation plan available for " ++ a } ∧
    simulate_remediation_execution now a =
      .error { error := "Cannot execute remediation for " ++ a } ∧
    get_alert_info sc = none ∧
    get_analysis_data sc = none ∧
    get_remediation_data sc = none ∧
    get_impact_data sc = none := by
  have hd : (DEMO_ALERTS pid t0).lookup a = none :=
    lookup_eq_none_of_not_mem a (DEMO_ALERTS pid t0) ha
  have han : analyses.lookup a = none :=
    lookup_eq_none_of_not_mem a analyses ha
  have hpl : (remediation_plans pid).lookup a = none :=
    lookup_eq_none_of_not_mem a (remediation_plans pid) ha
  have hex : execution_results.lookup a = none :=
    lookup_eq_none_of_not_mem a execution_results ha
  have h1 : alerts.lookup sc = none :=
    lookup_eq_none_of_not_mem sc alerts hs
  have h2 : analysis.lookup sc = none :=
    lookup_eq_none_of_not_mem sc analysis hs
  have h3 : plans.lookup sc = none :=
    lookup_eq_none_of_not_mem sc plans hs
  have h4 : impacts.lookup sc = none :=
    lookup_eq_none_of_not_mem sc impacts hs
  refine ⟨?_, ?_, ?_, ?_, h1, h2, h3, h4⟩
  · unfold process_cloud_alert
    rw [hd]
    rfl
  · unfold analyze_root_cause
    rw [han]
  · unfold generate_remediation_plan
    rw [hpl]
  · unfold simulate_remediation_execution
    rw [hex]

/-- Witness for C1 (amended) at the concrete unknown identifiers
`cost_anomaly` (unknown to the agent facade) and `cost_spike` (unknown to
the dashboard). -/
theorem unknown_scenario_error_shapes_witness :
    ("cost_anomaly" ∉ ["cost_spike", "security_breach", "performance_issue"]) ∧
    ("cost_spike" ∉ ["cost_anomaly", "security_vulnerability", "performance_degradation",
                     "storage_waste", "network_anomaly", "compliance_violation"]) ∧
    (process_cloud_alert "p" "t0" "t1" "cost_anomaly" =
      .error { error := "Unknown alert type: " ++ "cost_anomaly"
               available_types := ["cost_spike", "security_breach", "performance_issue"] } ∧
     analyze_root_cause "t1" "cost_anomaly" =
      .error { error := "No analysis available for " ++ "cost_anomaly" } ∧
     generate_remediation_plan "p" "t1" "cost_anomaly" =
      .error { error := "No remediation plan available for " ++ "cost_anomaly" } ∧
     simulate_remediation_execution "t1" "cost_anomaly" =
      .error { error := "Cannot execute remediation for " ++ "cost_anomaly" } ∧
     get_alert_info "cost_spike" = none ∧
     get_analysis_data "cost_spike" = none ∧
     get_remediation_data "cost_spike" = none ∧
     get_impact_data "cost_spike" = none) :=
  ⟨by decide, by decide,
   unknown_scenario_error_shapes "p" "t0" "t1" "cost_anomaly" "cost_spike"
     (by decide) (by decide)⟩

/-- C1 counterexample: the claim fails on the code.  At the unknown
identifier `storage_waste` the facade operation `analyze_root_cause`
returns a structured error consisting of the bare message only — its
payload has no list of available identifiers at all — and at the unknown
identifier `cost_spike` the dashboard lookup `get_alert_info` does not
return any structured error result: the source indexes the dictionary
directly and raises `KeyError` (modelled as `none`). -/
theorem unknown_scenario_listing_cex :
    analyze_root_cause "2025-01-01" "storage_waste" =
      .error { error := "No analysis available for storage_waste" } ∧
    get_alert_info "cost_spike" = none := by
  exact ⟨rfl, rfl⟩

/-- C2 (amended): launching the demo with a chosen scenario sets the
demo-running flag and the selected scenario but preserves the
analysis-done and execution-done flags unchanged; it does not clear the
set of completed stages (only the explicit reset trigger does). -/
theorem launch_sets_scenario_keeps_stages (s : SessionState) (sc : String) :
    step (.launch sc) s =
      { demo_running := true
        current_scenario := some sc
        analysis_done := s.analysis_done
        execution_done := s.execution_done } := by
  obtain ⟨dr, c, ad, ed⟩ := s
  rfl

/-- C2 counterexample: from a state in which analysis and execution have
both completed, selecting a new scenario leaves every stage still marked
complete — the pipeline does not restart at the Detect stage with no stage
complete. -/
theorem launch_keeps_completed_stages_cex :
    stagesCompleted (step (.launch "security_vulnerability")
        { demo_running := true
          current_scenario := some "cost_anomaly"
          analysis_done := true
          execution_done := true }) =
      [.Detected, .Analyzed, .Planned, .Executed] := rfl

/-- C3 (amended): the Reject button changes no session state at all — it
only displays a message.  The pipeline therefore stays at the Plan gate
(which keeps offering the three choices), there is no terminal Rejected
state, and a subsequent Approve succeeds and marks execution complete. -/
theorem reject_noop_plan_gate (s : SessionState) (sc : Option String) :
    step .reject s = s ∧
    gateOffered (step .reject
      { demo_running := true
        current_scenario := sc
        analysis_done := true
        execution_done := false }) = true ∧
    step .approve (step .reject
      { demo_running := true
        current_scenario := sc
        analysis_done := true
        execution_done := false }) =
      { demo_running := true
        current_scenario := sc
        analysis_done := true
        execution_done := true } :=
  ⟨rfl, rfl, rfl⟩

/-- C3 counterexample: after a Reject at the Plan gate an Approve trigger
still succeeds and the pipeline enters the Execute stage — the Rejected
state is not terminal (it does not even exist in the code). -/
theorem reject_then_approve_executes_cex :
    (step .approve (step .reject
      { demo_running := true
        current_scenario := some "cost_anomaly"
        analysis_done := true
        execution_done := false })).execution_done = true := rfl

/-- C4: in every session state reachable by any trigger sequence from the
initial state, the set of completed stages is a contiguous initial segment
of the fixed order Detected, Analyzed, Planned, Executed. -/
theorem stages_completed_ordered (ts : List Trigger) :
    List.IsPrefix (stagesCompleted (runTriggers ts initState)) stageOrder :=
  stagesCompleted_ordered_of_inv _ (stageInv_run ts initState stageInv_initState)

/-- C5: the agent facade's four tables are keyed by exactly the three
identifiers `cost_spike`, `security_breach`, `performance_issue`, the
dashboard's four tables are keyed by exactly the six identifiers of its
scenario selector, and the two key sets have empty intersection. -/
theorem variant_key_sets_disjoint (pid t0 : String) :
    (DEMO_ALERTS pid t0).map Prod.fst = ["cost_spike", "security_breach", "performance_issue"] ∧
    analyses.map Prod.fst = ["cost_spike", "security_breach", "performance_issue"] ∧
    (remediation_plans pid).map Prod.fst =
      ["cost_spike", "security_breach", "performance_issue"] ∧
    execution_results.map Prod.fst = ["cost_spike", "security_breach", "performance_issue"] ∧
    alert_scenarios.map Prod.fst =
      ["cost_anomaly", "security_vulnerability", "performance_degradation",
       "storage_waste", "network_anomaly", "compliance_violation"] ∧
    alerts.map Prod.fst = alert_scenarios.map Prod.fst ∧
    analysis.map Prod.fst = alert_scenarios.map Prod.fst ∧
    plans.map Prod.fst = alert_scenarios.map Prod.fst ∧
    impacts.map Prod.fst = alert_scenarios.map Prod.fst ∧
    List.inter ["cost_spike", "security_breach", "performance_issue"]
      ["cost_anomaly", "security_vulnerability", "performance_degradation",
       "storage_waste", "network_anomaly", "compliance_violation"] = ([] : List String) := by
  refine ⟨rfl, rfl, rfl, rfl, rfl, rfl, rfl, rfl, rfl, by decide⟩

/-- C6: every one of the six dashboard scenario identifiers is found in all
four dashboard lookup tables; the embedded record types carry every field
the source dictionaries define (severity/resource/duration/description;
confidence/risk/urgency/root cause/factors; action/time/outcome/success
rate/commands/safety/rollback; title/details), so each successful lookup
returns all fields. -/
theorem catalog_lookup_total :
    ∀ s ∈ alert_scenarios.map Prod.fst,
      (get_alert_info s).isSome = true ∧ (get_analysis_data s).isSome = true ∧
      (get_remediation_data s).isSome = true ∧ (get_impact_data s).isSome = true := by
  decide

/-- Witness for C6 at the concrete identifier `cost_anomaly`. -/
theorem catalog_lookup_total_witness :
    "cost_anomaly" ∈ alert_scenarios.map Prod.fst ∧
    ((get_alert_info "cost_anomaly").isSome = true ∧
     (get_analysis_data "cost_anomaly").isSome = true ∧
     (get_remediation_data "cost_anomaly").isSome = true ∧
     (get_impact_data "cost_anomaly").isSome = true) :=
  ⟨by decide, catalog_lookup_total "cost_anomaly" (by decide)⟩

/-- C7: for every identifier in the agent facade's closed set,
`simulate_remediation_execution` returns exactly the static table record
(whose `status` is `SUCCESS` and which carries the execution-time
description, commands-executed count, outcome and follow-up-monitoring
fields) stamped with the call time and the fixed label
`Aura Autonomous Agent`; the result is nothing but this lookup-and-stamp. -/
theorem simulate_execution_ok (now a : String)
    (h : a ∈ execution_results.map Prod.fst) :
    ∃ base, execution_results.lookup a = some base ∧ base.status = "SUCCESS" ∧
      simulate_remediation_execution now a =
        .ok { toExecutionResult := base
              execution_timestamp := now
              executed_by := "Aura Autonomous Agent" } := by
  simp only [execution_results, List.map_cons, List.map_nil, List.mem_cons,
    List.not_mem_nil, or_false] at h
  rcases h with rfl | rfl | rfl <;> exact ⟨_, rfl, rfl, rfl⟩

/-- Witness for C7 at the concrete identifier `cost_spike`. -/
theorem simulate_execution_ok_witness :
    "cost_spike" ∈ execution_results.map Prod.fst ∧
    ∃ base, execution_results.lookup "cost_spike" = some base ∧
      base.status = "SUCCESS" ∧
      simulate_remediation_execution "2025-01-01" "cost_spike" =
        .ok { toExecutionResult := base
              execution_timestamp := "2025-01-01"
              executed_by := "Aura Autonomous Agent" } :=
  ⟨by decide, simulate_execution_ok "2025-01-01" "cost_spike" (by decide)⟩

/-- C8: a Defer at the Plan gate changes nothing — the pipeline stays in
the Plan state with the three choices still offered — and a subsequent
Approve from that state succeeds, reaching the terminal shape with
execution marked complete. -/
theorem defer_then_approve_done (sc : Option String) :
    step .defer
      { demo_running := true
        current_scenario := sc
        analysis_done := true
        execution_done := false } =
      { demo_running := true
        current_scenario := sc
        analysis_done := true
        execution_done := false } ∧
    gateOffered (step .defer
      { demo_running := true
        current_scenario := sc
        analysis_done := true
        execution_done := false }) = true ∧
    step .approve (step .defer
      { demo_running := true
        current_scenario := sc
        analysis_done := true
        execution_done := false }) =
      { demo_running := true
        current_scenario := sc
        analysis_done := true
        execution_done := true } ∧
    stageComplete (step .approve (step .defer
      { demo_running := true
        current_scenario := sc
        analysis_done := true
        execution_done := false })) .Executed = true :=
  ⟨rfl, rfl, rfl, rfl⟩

/-- C9: marking a stage that is already complete is a no-op and never an
error: re-running the analysis on a state whose analysis flag is set, or
re-approving execution on a state whose execution flag is set, returns the
state unchanged, and for both marking triggers the completed-stage set
after a second application equals the one after the first. -/
theorem mark_complete_idempotent (s : SessionState) :
    step .start_analysis { s with analysis_done := true } =
      { s with analysis_done := true } ∧
    step .approve { s with execution_done := true } =
      { s with execution_done := true } ∧
    stagesCompleted (step .start_analysis (step .start_analysis s)) =
      stagesCompleted (step .start_analysis s) ∧
    stagesCompleted (step .approve (step .approve s)) =
      stagesCompleted (step .approve s) := by
  refine ⟨?_, ?_, ?_, ?_⟩
  · obtain ⟨dr, c, ad, ed⟩ := s
    cases dr <;> simp [step]
  · obtain ⟨dr, c, ad, ed⟩ := s
    cases dr <;> cases ad <;> simp [step]
  · rw [step_idem]
  · rw [step_idem]

/-- C10: the three table-backed facade operations are deterministic up to
their time-stamp field — for any fixed alert type, calls at two different
times agree once the stamp is erased — and a call threaded through the
module state returns the module-level `DEMO_ALERTS` table unchanged. -/
theorem facade_deterministic_up_to_timestamps (pid t1 t2 a : String) (m : AgentModule) :
    eraseAnalysisTs (analyze_root_cause t1 a) = eraseAnalysisTs (analyze_root_cause t2 a) ∧
    erasePlanTs (generate_remediation_plan pid t1 a) =
      erasePlanTs (generate_remediation_plan pid t2 a) ∧
    eraseExecTs (simulate_remediation_execution t1 a) =
      eraseExecTs (simulate_remediation_execution t2 a) ∧
    (analyze_root_cause_call m t1 a).2 = m ∧
    (generate_remediation_plan_call m pid t1 a).2 = m ∧
    (simulate_remediation_execution_call m t1 a).2 = m := by
  refine ⟨?_, ?_, ?_, rfl, rfl, rfl⟩
  · cases h : analyses.lookup a <;>
      simp [analyze_root_cause, eraseAnalysisTs, h]
  · cases h : (remediation_plans pid).lookup a <;>
      simp [generate_remediation_plan, erasePlanTs, h]
  · cases h : execution_results.lookup a <;>
      simp [simulate_remediation_execution, eraseExecTs, h]

end Aura
